import Mathlib

/-!
Shallow embedding of `rdscli_exporter` (src/main.go), an AWS RDS Prometheus
exporter.  The embedding models:

* the label construction and per-instance metric emission of
  `collectRegionMetrics` (main.go:130-205), with the provider responses
  (region list, paginated `DescribeDBInstances` pages, per-instance
  `ListTagsForResource` results) supplied as explicit data;
* the refresh cycle `updateCache` (main.go:94-128) as a state transformer on
  the exporter state (cache, lastUpdate, log);
* the lock-level interleavings of the scrape reader `Collect`
  (main.go:81-92), the unlocked cache appends inside `collectRegionMetrics`
  (main.go:180,185,190,195) and the final swap (main.go:124-127), as a small
  event-step machine;
* the refresh mutex `updateMu` (main.go:95-96, Go `sync.Mutex` semantics:
  `Lock` blocks/queues while held) as an event-step machine.
-/

namespace RdsExporter

instance {ε α : Type} [DecidableEq ε] [DecidableEq α] :
    DecidableEq (Except ε α) := fun a b =>
  match a, b with
  | Except.error e, Except.error e' =>
      if h : e = e' then isTrue (by rw [h]) else
        isFalse (by intro hc; cases hc; exact h rfl)
  | Except.error _, Except.ok _ => isFalse (by intro hc; cases hc)
  | Except.ok _, Except.error _ => isFalse (by intro hc; cases hc)
  | Except.ok x, Except.ok y =>
      if h : x = y then isTrue (by rw [h]) else
        isFalse (by intro hc; cases hc; exact h rfl)

/-- Provider record for one database instance (the fields of
`types.DBInstance` read by main.go).  Pointer-typed optional fields are
`Option`; numeric fields that the code converts with `float64(...)` are
modelled as `Int`. -/
structure DBInstance where
  dbInstanceIdentifier : String
  availabilityZone : String
  secondaryAvailabilityZone : Option String
  storageType : String
  dbInstanceClass : String
  engine : String
  dbInstanceArn : String
  allocatedStorage : Option Int
  maxAllocatedStorage : Option Int
  iops : Option Int
  storageThroughput : Option Int
  deriving Repr, DecidableEq

/-- One tag returned by `ListTagsForResource` (`rds/types.Tag`): both key and
value are pointers in the SDK, hence `Option`. -/
structure Tag where
  key : Option String
  value : Option String
  deriving Repr, DecidableEq

/-- The four metric descriptors of main.go:27-46. -/
inductive MetricName
  | allocatedStorage
  | maxAllocatedStorage
  | iops
  | storageThroughput
  deriving Repr, DecidableEq

/-- One emitted sample (`prometheus.MustNewConstMetric` call): metric name,
gauge value, ordered label value tuple. -/
structure Metric where
  name : MetricName
  value : Int
  labels : List String
  deriving Repr, DecidableEq

/-- main.go:23. -/
def baseLabels : List String :=
  ["dimension_DBInstanceIdentifier", "az", "secondary_az", "storage_type",
   "region", "db_instance_class", "engine"]

/-- main.go:24 — the configured tag keys, fixed at startup. -/
def tags : List String := ["purpose", "team", "region", "environment"]

/-- main.go:58-63: appends `"tag_" + tag` for each tag key to the base
labels. -/
def createDynLabels (baseLabels : List String) (tags : List String) :
    List String :=
  baseLabels ++ tags.map (fun tag => "tag_" ++ tag)

/-- main.go:25. -/
def dynLabels : List String := createDynLabels baseLabels tags

/-- Log line of main.go:102 (`"Error listing regions: %v"`). -/
def listRegionsError (e : String) : String :=
  "Error listing regions: " ++ e

/-- Log line of main.go:136 (`"Couldn't list RDS instances in region %s : %v"`). -/
def listInstancesError (regionName e : String) : String :=
  "Couldn't list RDS instances in region " ++ regionName ++ " : " ++ e

/-- Log line of main.go:164 (`"Error listing tags for RDS instance %s : %v"`). -/
def listTagsError (arn e : String) : String :=
  "Error listing tags for RDS instance " ++ arn ++ " : " ++ e

/-- main.go:155-171: build the tag map.  Initialised with the empty string
for every configured key (main.go:156-158); on tag-fetch failure it stays
that way (the `else` branch is skipped); on success every returned tag with
non-nil key and value whose key is in the configured list overwrites the
entry (main.go:166-170, later entries win as in a Go map assignment).
`tagStep` is the body of the loop at main.go:166-170: one tag with non-nil
key and value whose key is configured overwrites the map entry for that
key; any other tag leaves the map unchanged. -/
def tagStep (tagKeys : List String) (m : String → String) (tag : Tag) :
    String → String :=
  match tag.key, tag.value with
  | some k, some v =>
      if tagKeys.contains k then fun q => if q = k then v else m q
      else m
  | _, _ => m

/-- The guard of main.go:167 on one tag: non-nil key that is in the
configured key list (the tag's value may still be nil, in which case the
entry is not written). -/
def keyConfigured (tagKeys : List String) (tag : Tag) : Bool :=
  match tag.key with
  | some k => tagKeys.contains k
  | none => false

def buildTagMap (tagKeys : List String) (tagsResult : Except String (List Tag)) :
    String → String :=
  let init : String → String := fun _ => ""
  match tagsResult with
  | Except.error _ => init
  | Except.ok tagList => tagList.foldl (tagStep tagKeys) init

/-- main.go:141-176: the ordered label value tuple for one instance — the
seven base label values in declared order (secondary availability zone
defaulting to `""`, main.go:144-148), followed by one tag-map lookup per
configured key in declared order (main.go:174-176). -/
def instanceLabels (tagKeys : List String) (regionName : String)
    (inst : DBInstance) (tagsResult : Except String (List Tag)) : List String :=
  [inst.dbInstanceIdentifier,
   inst.availabilityZone,
   inst.secondaryAvailabilityZone.getD "",
   inst.storageType,
   regionName,
   inst.dbInstanceClass,
   inst.engine]
  ++ tagKeys.map (buildTagMap tagKeys tagsResult)

/-- One `if instance.Field != nil { ... }` block of main.go:178-197: a
populated field yields exactly one sample with that value and the shared
label tuple; an absent field yields no sample. -/
def optMetric (n : MetricName) (o : Option Int) (labels : List String) :
    List Metric :=
  match o with
  | some v => [⟨n, v, labels⟩]
  | none => []

/-- main.go:178-197: one sample per populated optional numeric field, in
source order, all carrying the same label tuple. -/
def instanceMetrics (tagKeys : List String) (regionName : String)
    (inst : DBInstance) (tagsResult : Except String (List Tag)) : List Metric :=
  let labels := instanceLabels tagKeys regionName inst tagsResult
  optMetric MetricName.allocatedStorage inst.allocatedStorage labels
  ++ optMetric MetricName.maxAllocatedStorage inst.maxAllocatedStorage labels
  ++ optMetric MetricName.iops inst.iops labels
  ++ optMetric MetricName.storageThroughput inst.storageThroughput labels

/-- The tag-fetch log contribution of one instance (main.go:163-164). -/
def instanceTagLog (inst : DBInstance)
    (tagsResult : Except String (List Tag)) : List String :=
  match tagsResult with
  | Except.error e => [listTagsError inst.dbInstanceArn e]
  | Except.ok _ => []

/-- One response of `DescribeDBInstances` (main.go:134): the page's
instances, each paired with the `ListTagsForResource` response the provider
gives for it (main.go:160-162), and the continuation `Marker`
(main.go:199-203). -/
structure DescribePage where
  dbInstances : List (DBInstance × Except String (List Tag))
  marker : Option String
  deriving Repr, DecidableEq

/-- Samples emitted for one page (main.go:140-198, over all instances). -/
def pageEmissions (tagKeys : List String) (regionName : String)
    (page : DescribePage) : List Metric :=
  (page.dbInstances.map
    (fun p => instanceMetrics tagKeys regionName p.1 p.2)).flatten

/-- Log lines produced while processing one page. -/
def pageLogs (page : DescribePage) : List String :=
  (page.dbInstances.map (fun p => instanceTagLog p.1 p.2)).flatten

/-- Result of running `collectRegionMetrics` for one region: the exporter
cache after the region ran (the function mutates `e.cache` at
main.go:180,185,190,195), the samples sent on the channel, and the log
lines written. -/
structure RegionResult where
  cache : List Metric
  emitted : List Metric
  log : List String
  deriving Repr, DecidableEq

/-- main.go:130-205 (`collectRegionMetrics`): iterate the paginated
`DescribeDBInstances` call.  The environment is the sequence of responses
the provider returns to the successive calls.  On an error response the
loop logs and breaks (main.go:135-138).  On a page, every emitted sample is
both appended to `e.cache` (main.go:180,185,190,195) and sent on the
channel; the loop stops when no continuation marker is returned
(main.go:199-203). -/
def collectRegionMetrics (tagKeys : List String) (regionName : String) :
    List (Except String DescribePage) → List Metric → RegionResult
  | [], cache => ⟨cache, [], []⟩
  | Except.error e :: _, cache =>
      ⟨cache, [], [listInstancesError regionName e]⟩
  | Except.ok page :: rest, cache =>
      let ems := pageEmissions tagKeys regionName page
      let lgs := pageLogs page
      match page.marker with
      | none => ⟨cache ++ ems, ems, lgs⟩
      | some _ =>
          let r := collectRegionMetrics tagKeys regionName rest (cache ++ ems)
          ⟨r.cache, ems ++ r.emitted, lgs ++ r.log⟩

/-- Exporter state shared between scrapes and refreshes: `e.cache`,
`e.lastUpdate` (time as a natural number), and the process log. -/
structure ExporterState where
  cache : List Metric
  lastUpdate : Nat
  log : List String
  deriving Repr, DecidableEq

/-- main.go:94-128 (`updateCache`), as the net state transformation of one
refresh cycle.  `regionsData` is the provider's `ListRegions` response: an
error, or the enabled regions each paired with the page-response sequence
their collector will receive.  On enumeration failure the cycle logs and
returns with no other state change (main.go:101-104).  On success it fans
out the region collectors, merges all channel emissions into `newCache`
(main.go:106-123) and swaps it in, recording the completion time
(main.go:124-127). -/
def updateCache (now : Nat)
    (regionsData : Except String (List (String × List (Except String DescribePage))))
    (st : ExporterState) : ExporterState :=
  match regionsData with
  | Except.error e => { st with log := st.log ++ [listRegionsError e] }
  | Except.ok regions =>
      let results := regions.map
        (fun rp => collectRegionMetrics tags rp.1 rp.2 st.cache)
      let newCache := (results.map RegionResult.emitted).flatten
      let logs := (results.map RegionResult.log).flatten
      ⟨newCache, now, st.log ++ logs⟩

/-! ### Lock-level interleaving machine for the cache

The scrape reader `Collect` (main.go:81-92) iterates `e.cache` under
`e.mu.RLock()`; the final swap in `updateCache` (main.go:124-127) assigns
`e.cache` under `e.mu.Lock()`; but the appends inside
`collectRegionMetrics` (main.go:180,185,190,195) access `e.cache` with no
lock at all, so they may interleave with readers.  The machine below has
one shared cache, an RWMutex, and records every value a reader observes. -/

/-- Shared state of the cache machine: the cache, the RWMutex (reader count
and writer flag), and the list of snapshots readers have observed. -/
structure CacheState where
  cache : List Metric
  readers : Nat
  writerHeld : Bool
  observations : List (List Metric)
  deriving Repr, DecidableEq

/-- Atomic events of the interleaving: reader lock/read/unlock
(main.go:82-87), a collector goroutine's unlocked append
(main.go:180,185,190,195), and the writer-locked swap (main.go:124-127). -/
inductive CacheEvent
  | rlock
  | readCache
  | runlock
  | append (m : Metric)
  | wlock
  | setCache (ms : List Metric)
  | wunlock
  deriving Repr, DecidableEq

/-- One step of the machine.  `none` means the event cannot fire in this
state (a goroutine attempting it would block or the schedule is invalid):
`RLock` blocks while the writer holds the lock, `Lock` blocks while any
reader or the writer holds it; `readCache` only fires inside an RLock
section and `setCache` only inside a Lock section, matching where those
operations occur in the code; `append` fires unconditionally because
`collectRegionMetrics` takes no lock. -/
def cacheStep (s : CacheState) : CacheEvent → Option CacheState
  | CacheEvent.rlock =>
      if s.writerHeld then none
      else some { s with readers := s.readers + 1 }
  | CacheEvent.readCache =>
      if s.readers = 0 then none
      else some { s with observations := s.observations ++ [s.cache] }
  | CacheEvent.runlock =>
      if s.readers = 0 then none
      else some { s with readers := s.readers - 1 }
  | CacheEvent.append m => some { s with cache := s.cache ++ [m] }
  | CacheEvent.wlock =>
      if s.writerHeld ∨ s.readers ≠ 0 then none
      else some { s with writerHeld := true }
  | CacheEvent.setCache ms =>
      if s.writerHeld then some { s with cache := ms } else none
  | CacheEvent.wunlock =>
      if s.writerHeld then some { s with writerHeld := false } else none

/-- Run a schedule of events from a state; `none` if any step is invalid. -/
def cacheRun (s : CacheState) : List CacheEvent → Option CacheState
  | [] => some s
  | e :: es =>
      match cacheStep s e with
      | none => none
      | some s' => cacheRun s' es

/-! ### The refresh mutex `updateMu`

`updateCache` begins with `e.updateMu.Lock()` and defers the unlock
(main.go:95-96).  Go's `sync.Mutex.Lock` blocks the caller while the mutex
is held and wakes one waiter on `Unlock`; it never fails or no-ops.  The
machine below tracks which goroutine holds the mutex (and is therefore
running the refresh body), the queue of blocked requesters, and the
refreshes that have completed. -/

/-- State of the refresh mutex: current holder (the goroutine executing the
refresh body), FIFO queue of goroutines blocked in `Lock`, and the ordered
list of goroutines whose refresh has completed. -/
structure MuState where
  holder : Option Nat
  waiting : List Nat
  completed : List Nat
  deriving Repr, DecidableEq

/-- Events: goroutine `g` calls `updateCache` (reaching `updateMu.Lock()`),
or goroutine `g` finishes the refresh body (the deferred `Unlock` runs,
handing the mutex to the first waiter if any). -/
inductive MuEvent
  | request (g : Nat)
  | finish (g : Nat)
  deriving Repr, DecidableEq

/-- One step of the mutex machine, following `sync.Mutex` semantics:
a request while the mutex is free acquires it; a request while it is held
joins the wait queue (it does not fail and is not dropped); a finish by the
holder appends it to `completed` and passes the mutex to the head waiter. -/
def muStep (s : MuState) : MuEvent → Option MuState
  | MuEvent.request g =>
      match s.holder with
      | none => some { s with holder := some g }
      | some _ => some { s with waiting := s.waiting ++ [g] }
  | MuEvent.finish g =>
      if s.holder = some g then
        match s.waiting with
        | [] => some ⟨none, [], s.completed ++ [g]⟩
        | w :: ws => some ⟨some w, ws, s.completed ++ [g]⟩
      else none

/-- Run a schedule of mutex events. -/
def muRun (s : MuState) : List MuEvent → Option MuState
  | [] => some s
  | e :: es =>
      match muStep s e with
      | none => none
      | some s' => muRun s' es

/-! ### Concrete data used by the evaluation theorems -/

/-- The instance of the spec's worked example (§8): `db-1` in `us-east-1a`,
no secondary zone, storage `gp3`, class `db.t3.micro`, engine `postgres`,
allocated storage 100, no max-allocated-storage, IOPS 3000, no storage
throughput. -/
def db1 : DBInstance :=
  ⟨"db-1", "us-east-1a", none, "gp3", "db.t3.micro", "postgres",
   "arn:aws:rds:us-east-1:db-1", some 100, none, some 3000, none⟩

end RdsExporter

open RdsExporter

/-- C1: the claim says the snapshot cache is modified only by the single
final replace — no write to the cache between the start of collection and
the swap.  The code violates this: `collectRegionMetrics` appends every
emitted sample to `e.cache` (main.go:180,185,190,195) during collection.
Running the embedded collector on one page with one instance (two populated
fields), starting from an empty cache and before any swap has happened,
leaves the cache non-empty: the cache was written during collection. -/
theorem c1_cache_written_during_collection :
    (collectRegionMetrics tags "us-east-1"
        [Except.ok ⟨[(db1, Except.ok [])], none⟩] []).cache ≠ ([] : List Metric)
    ∧ (collectRegionMetrics tags "us-east-1"
        [Except.ok ⟨[(db1, Except.ok [])], none⟩] []).cache =
      [] ++ (collectRegionMetrics tags "us-east-1"
        [Except.ok ⟨[(db1, Except.ok [])], none⟩] []).emitted := by
  constructor
  · decide
  · rfl

/-- C2: the claim says a reader always observes either the complete prior
snapshot or the complete new snapshot.  Counter-run on the lock machine:
prior snapshot `[m₀]`; a collector goroutine appends `m₁` without any lock
(main.go:180); a scrape then acquires the read lock and reads; the refresh
finally swaps in the new snapshot `[m₁]` under the write lock.  Every lock
rule of the code is respected, yet the reader observes `[m₀, m₁]`, which is
neither the prior snapshot `[m₀]` nor the new snapshot `[m₁]`. -/
theorem c2_reader_observes_torn_snapshot :
    cacheRun ⟨[⟨MetricName.allocatedStorage, 1, ["a"]⟩], 0, false, []⟩
        [CacheEvent.append ⟨MetricName.iops, 2, ["b"]⟩,
         CacheEvent.rlock, CacheEvent.readCache, CacheEvent.runlock,
         CacheEvent.wlock, CacheEvent.setCache [⟨MetricName.iops, 2, ["b"]⟩],
         CacheEvent.wunlock] =
      some ⟨[⟨MetricName.iops, 2, ["b"]⟩], 0, false,
            [[⟨MetricName.allocatedStorage, 1, ["a"]⟩,
              ⟨MetricName.iops, 2, ["b"]⟩]]⟩
    ∧ ([⟨MetricName.allocatedStorage, 1, ["a"]⟩, ⟨MetricName.iops, 2, ["b"]⟩] :
        List Metric) ≠ [⟨MetricName.allocatedStorage, 1, ["a"]⟩]
    ∧ ([⟨MetricName.allocatedStorage, 1, ["a"]⟩, ⟨MetricName.iops, 2, ["b"]⟩] :
        List Metric) ≠ [⟨MetricName.iops, 2, ["b"]⟩] := by
  refine ⟨by decide, by decide, by decide⟩

/-- C3 counterexample: the claim says a refresh requested while one is
running is a no-op — neither queued nor duplicated.  On the mutex machine
(Go `sync.Mutex` semantics for `updateMu.Lock()`, main.go:95): goroutine 1
starts a refresh, goroutine 2 requests one while it runs and is placed in
the wait queue (`waiting = [2]`), and after goroutine 1 finishes, goroutine
2 executes its own full refresh (`completed = [1, 2]`).  The request was
queued and duplicated the refresh, refuting the claim. -/
theorem c3_request_queued_counterexample :
    muRun ⟨none, [], []⟩ [MuEvent.request 1, MuEvent.request 2] =
      some ⟨some 1, [2], []⟩
    ∧ muRun ⟨none, [], []⟩
        [MuEvent.request 1, MuEvent.request 2, MuEvent.finish 1,
         MuEvent.finish 2] =
      some ⟨none, [], [1, 2]⟩ := by
  exact ⟨rfl, rfl⟩

/-- C3 (amended): at most one refresh cycle executes at any instant — a
refresh requested while one is running does not start concurrently and is
not dropped: it is queued on the refresh mutex and executes after the
current holder finishes.  Formally: while `h` holds the mutex, a request by
`g` leaves the holder unchanged and appends `g` to the wait queue, and when
`h` finishes, the head of the wait queue becomes the next refresh holder. -/
theorem c3_refreshes_serialized (s : MuState) (g h w : Nat) (ws : List Nat)
    (hh : s.holder = some h) (hw : s.waiting = w :: ws) :
    muStep s (MuEvent.request g) = some { s with waiting := s.waiting ++ [g] }
    ∧ muStep s (MuEvent.finish h) = some ⟨some w, ws, s.completed ++ [h]⟩ := by
  constructor
  · simp [muStep, hh]
  · simp [muStep, hh, hw]

/-- Witness for C3 (amended) at the state where goroutine 1 holds the
refresh mutex and goroutine 2 waits: goroutine 3's request is queued behind
2, and on goroutine 1's finish, goroutine 2 acquires the refresh. -/
theorem c3_refreshes_serialized_witness :
    muStep ⟨some 1, [2], []⟩ (MuEvent.request 3) = some ⟨some 1, [2, 3], []⟩
    ∧ muStep ⟨some 1, [2], []⟩ (MuEvent.finish 1) = some ⟨some 2, [], [1]⟩ := by
  have h := c3_refreshes_serialized ⟨some 1, [2], []⟩ 3 1 2 [] rfl rfl
  simpa using h

theorem labels_of_mem_optMetric (n : MetricName) (o : Option Int)
    (L : List String) (m : Metric) (hm : m ∈ optMetric n o L) :
    m.labels = L := by
  cases o with
  | none => simp [optMetric] at hm
  | some v => simp [optMetric] at hm; rw [hm]

theorem countP_optMetric (n n' : MetricName) (o : Option Int)
    (L : List String) :
    (optMetric n o L).countP (fun m => decide (m.name = n')) =
      if n = n' ∧ o.isSome then 1 else 0 := by
  cases o <;> by_cases h : n = n' <;>
    simp [optMetric, List.countP_cons, h]

theorem tagStep_ne_key (tagKeys : List String) (m : String → String)
    (t : Tag) (k : String) (h : t.key ≠ some k) :
    tagStep tagKeys m t k = m k := by
  rcases t with ⟨tk, tv⟩
  cases tk with
  | none => cases tv <;> rfl
  | some k' =>
      cases tv with
      | none => rfl
      | some v =>
          have hne : k ≠ k' := by
            intro hkk
            exact h (by simp only [hkk])
          simp only [tagStep]
          split
          · simp [hne]
          · rfl

theorem foldl_tagStep_ne_key (tagKeys : List String) (k : String) :
    ∀ (tagList : List Tag) (m : String → String),
      (∀ t ∈ tagList, t.key ≠ some k) →
      tagList.foldl (tagStep tagKeys) m k = m k := by
  intro tagList
  induction tagList with
  | nil => intro m _; rfl
  | cons t ts ih =>
      intro m h
      simp only [List.foldl_cons]
      rw [ih (tagStep tagKeys m t)
            (fun t' ht' => h t' (List.mem_cons_of_mem _ ht'))]
      exact tagStep_ne_key tagKeys m t k (h t (List.mem_cons_self _ _))

theorem tagStep_unconfigured (tagKeys : List String) (m : String → String)
    (t : Tag) (h : keyConfigured tagKeys t = false) :
    tagStep tagKeys m t = m := by
  rcases t with ⟨tk, tv⟩
  cases tk with
  | none => cases tv <;> rfl
  | some k' =>
      cases tv with
      | none => rfl
      | some v =>
          simp only [keyConfigured] at h
          simp only [tagStep]
          split
          · rename_i hc
            rw [h] at hc
            cases hc
          · rfl

theorem foldl_tagStep_filter (tagKeys : List String) :
    ∀ (tl : List Tag) (m : String → String),
      (tl.filter (keyConfigured tagKeys)).foldl (tagStep tagKeys) m =
        tl.foldl (tagStep tagKeys) m := by
  intro tl
  induction tl with
  | nil => intro m; rfl
  | cons t ts ih =>
      intro m
      by_cases h : keyConfigured tagKeys t = true
      · simp only [List.filter_cons, h, if_true, List.foldl_cons]
        exact ih (tagStep tagKeys m t)
      · have h' : keyConfigured tagKeys t = false := by simpa using h
        simp only [List.filter_cons, h', Bool.false_eq_true, if_false,
          List.foldl_cons]
        rw [tagStep_unconfigured tagKeys m t h']
        exact ih m

theorem foldl_tagStep_append_match (tagKeys : List String) (tl : List Tag)
    (m : String → String) (k v : String) (hk : tagKeys.contains k = true) :
    (tl ++ [Tag.mk (some k) (some v)]).foldl (tagStep tagKeys) m k = v := by
  rw [List.foldl_append]
  simp only [List.foldl_cons, List.foldl_nil, tagStep, hk, if_true]

/-- C5: the emitted label tuple always has length base-label count +
configured tag-key count (so does the metric descriptors' label-name list
`dynLabels`, fixed at startup), and every sample emitted for one instance
in one cycle carries the identical label tuple `instanceLabels`, whose
order is the declared base-label order followed by the declared tag-key
order. -/
theorem c5_label_tuple_arity_and_identity (regionName : String)
    (inst : DBInstance) (tagsResult : Except String (List Tag)) :
    (instanceLabels tags regionName inst tagsResult).length =
        baseLabels.length + tags.length
    ∧ dynLabels.length = baseLabels.length + tags.length
    ∧ ∀ m ∈ instanceMetrics tags regionName inst tagsResult,
        m.labels = instanceLabels tags regionName inst tagsResult := by
  refine ⟨?_, by decide, ?_⟩
  · simp [instanceLabels, baseLabels, tags]
  · intro m hm
    simp only [instanceMetrics, List.mem_append] at hm
    rcases hm with ((h | h) | h) | h <;>
      exact labels_of_mem_optMetric _ _ _ m h

/-- Witness for C5 at the worked-example instance with an empty tag list:
the tuple arity is base + tag-key count, and the concrete first emitted
sample carries exactly the shared tuple. -/
theorem c5_label_tuple_arity_and_identity_witness :
    (instanceLabels tags "us-east-1" db1 (Except.ok [])).length =
        baseLabels.length + tags.length
    ∧ Metric.labels
        ⟨MetricName.allocatedStorage, 100,
         instanceLabels tags "us-east-1" db1 (Except.ok [])⟩ =
      instanceLabels tags "us-east-1" db1 (Except.ok []) := by
  have h := c5_label_tuple_arity_and_identity "us-east-1" db1 (Except.ok [])
  exact ⟨h.1, h.2.2
    ⟨MetricName.allocatedStorage, 100,
     instanceLabels tags "us-east-1" db1 (Except.ok [])⟩ (by decide)⟩

/-- C6: for every instance, exactly one sample is emitted per populated
optional numeric field, and no sample of that metric name is emitted when
the field is absent — counted per metric name over the instance's
emissions. -/
theorem c6_one_sample_per_populated_field (tagKeys : List String)
    (regionName : String) (inst : DBInstance)
    (tagsResult : Except String (List Tag)) :
    ((instanceMetrics tagKeys regionName inst tagsResult).countP
        (fun m => decide (m.name = MetricName.allocatedStorage)) =
      if inst.allocatedStorage.isSome then 1 else 0)
    ∧ ((instanceMetrics tagKeys regionName inst tagsResult).countP
        (fun m => decide (m.name = MetricName.maxAllocatedStorage)) =
      if inst.maxAllocatedStorage.isSome then 1 else 0)
    ∧ ((instanceMetrics tagKeys regionName inst tagsResult).countP
        (fun m => decide (m.name = MetricName.iops)) =
      if inst.iops.isSome then 1 else 0)
    ∧ ((instanceMetrics tagKeys regionName inst tagsResult).countP
        (fun m => decide (m.name = MetricName.storageThroughput)) =
      if inst.storageThroughput.isSome then 1 else 0) := by
  refine ⟨?_, ?_, ?_, ?_⟩ <;>
    simp [instanceMetrics, List.countP_append, countP_optMetric]

/-- C7: on tag-fetch failure the failure is logged and the instance is
still processed — every tag slot is the empty string and the same metric
names are emitted as under any tag-fetch outcome; on success, matching is
exact key equality against the configured key set: a configured key
matched by no instance tag maps to the empty string, instance tags whose
key is not configured (or nil) are ignored, and a matching tag's value is
installed in the slot of its exact key. -/
theorem c7_tag_failure_and_matching (tagKeys : List String)
    (regionName : String) (inst : DBInstance) (e : String)
    (tagList tl : List Tag) (k v : String)
    (tagsResult : Except String (List Tag))
    (habsent : ∀ t ∈ tagList, t.key ≠ some k)
    (hk : tagKeys.contains k = true) :
    buildTagMap tagKeys (Except.error e) k = ""
    ∧ instanceLabels tagKeys regionName inst (Except.error e) =
        [inst.dbInstanceIdentifier, inst.availabilityZone,
         inst.secondaryAvailabilityZone.getD "", inst.storageType,
         regionName, inst.dbInstanceClass, inst.engine]
        ++ tagKeys.map (fun _ => "")
    ∧ instanceTagLog inst (Except.error e) =
        [listTagsError inst.dbInstanceArn e]
    ∧ (instanceMetrics tagKeys regionName inst (Except.error e)).map
        Metric.name =
      (instanceMetrics tagKeys regionName inst tagsResult).map Metric.name
    ∧ buildTagMap tagKeys (Except.ok tagList) k = ""
    ∧ buildTagMap tagKeys (Except.ok (tl.filter (keyConfigured tagKeys))) =
        buildTagMap tagKeys (Except.ok tl)
    ∧ buildTagMap tagKeys (Except.ok (tl ++ [Tag.mk (some k) (some v)])) k = v := by
  refine ⟨rfl, ?_, rfl, ?_, ?_, ?_, ?_⟩
  · simp [instanceLabels, buildTagMap]
  · rcases hA : inst.allocatedStorage with _ | a <;>
      rcases hB : inst.maxAllocatedStorage with _ | b <;>
      rcases hC : inst.iops with _ | c <;>
      rcases hD : inst.storageThroughput with _ | d <;>
      simp [instanceMetrics, optMetric, hA, hB, hC, hD]
  · exact foldl_tagStep_ne_key tagKeys k tagList _ habsent
  · exact foldl_tagStep_filter tagKeys tl _
  · exact foldl_tagStep_append_match tagKeys tl _ k v hk

/-- Witness for C7 at concrete inputs: tag keys `tags`
(`[purpose, team, region, environment]`), key `team`, an instance tag list
`[⟨junk, x⟩]` with no `team` tag, and the worked-example instance. -/
theorem c7_tag_failure_and_matching_witness :
    buildTagMap tags (Except.error "boom") "team" = ""
    ∧ instanceLabels tags "us-east-1" db1 (Except.error "boom") =
        ["db-1", "us-east-1a", "", "gp3", "us-east-1", "db.t3.micro",
         "postgres"] ++ tags.map (fun _ => "")
    ∧ instanceTagLog db1 (Except.error "boom") =
        [listTagsError "arn:aws:rds:us-east-1:db-1" "boom"]
    ∧ (instanceMetrics tags "us-east-1" db1 (Except.error "boom")).map
        Metric.name =
      (instanceMetrics tags "us-east-1" db1
        (Except.ok [Tag.mk (some "team") (some "core")])).map Metric.name
    ∧ buildTagMap tags (Except.ok [Tag.mk (some "junk") (some "x")]) "team" = ""
    ∧ buildTagMap tags
        (Except.ok ([Tag.mk (some "junk") (some "x")].filter
          (keyConfigured tags))) =
      buildTagMap tags (Except.ok [Tag.mk (some "junk") (some "x")])
    ∧ buildTagMap tags
        (Except.ok ([Tag.mk (some "junk") (some "x")] ++
          [Tag.mk (some "team") (some "core")])) "team" = "core" := by
  have h := c7_tag_failure_and_matching tags "us-east-1" db1 "boom"
    [Tag.mk (some "junk") (some "x")] [Tag.mk (some "junk") (some "x")]
    "team" "core" (Except.ok [Tag.mk (some "team") (some "core")])
    (by decide) (by decide)
  simpa using h

/-- C4: on region-enumeration failure the refresh cycle aborts before any
cache write — the cache and the last-update timestamp are unchanged and the
failure is appended to the log (main.go:101-104). -/
theorem c4_enumeration_failure_aborts (now : Nat) (e : String)
    (st : ExporterState) :
    (updateCache now (Except.error e) st).cache = st.cache
    ∧ (updateCache now (Except.error e) st).lastUpdate = st.lastUpdate
    ∧ (updateCache now (Except.error e) st).log =
        st.log ++ [listRegionsError e] := by
  refine ⟨rfl, rfl, rfl⟩

/-- C9: the spec's worked example.  Instance `db-1` (zone `us-east-1a`, no
secondary zone, storage `gp3`, class `db.t3.micro`, engine `postgres`,
allocated storage 100, no max-allocated-storage, IOPS 3000) with tag fetch
returning `{team: "core"}` under configured tag keys `[team, env]` emits
exactly two samples — allocated-storage = 100 and IOPS = 3000 — each with
label tuple `[db-1, us-east-1a, "", gp3, us-east-1, db.t3.micro, postgres,
core, ""]`. -/
theorem c9_worked_example :
    instanceMetrics ["team", "env"] "us-east-1" db1
        (Except.ok [⟨some "team", some "core"⟩]) =
      [⟨MetricName.allocatedStorage, 100,
        ["db-1", "us-east-1a", "", "gp3", "us-east-1", "db.t3.micro",
         "postgres", "core", ""]⟩,
       ⟨MetricName.iops, 3000,
        ["db-1", "us-east-1a", "", "gp3", "us-east-1", "db.t3.micro",
         "postgres", "core", ""]⟩] := by
  decide

theorem collectRegionMetrics_goodPages (tagKeys : List String)
    (regionName : String) :
    ∀ (good : List DescribePage) (tail : List (Except String DescribePage))
      (cache : List Metric),
      (∀ p ∈ good, p.marker.isSome) →
      collectRegionMetrics tagKeys regionName (good.map Except.ok ++ tail)
          cache =
        ⟨(collectRegionMetrics tagKeys regionName tail
            (cache ++ (good.map (pageEmissions tagKeys regionName)).flatten)).cache,
         (good.map (pageEmissions tagKeys regionName)).flatten ++
           (collectRegionMetrics tagKeys regionName tail
             (cache ++ (good.map (pageEmissions tagKeys regionName)).flatten)).emitted,
         (good.map pageLogs).flatten ++
           (collectRegionMetrics tagKeys regionName tail
             (cache ++ (good.map (pageEmissions tagKeys regionName)).flatten)).log⟩ := by
  intro good
  induction good with
  | nil => intro tail cache _; simp
  | cons p ps ih =>
      intro tail cache h
      have hp : p.marker.isSome := h p (List.mem_cons_self _ _)
      obtain ⟨mk, hmk⟩ := Option.isSome_iff_exists.mp hp
      simp only [List.map_cons, List.cons_append, collectRegionMetrics, hmk,
        List.append_eq]
      rw [ih tail (cache ++ pageEmissions tagKeys regionName p)
            (fun q hq => h q (List.mem_cons_of_mem _ hq))]
      simp [List.append_assoc]

/-- C8: per-region pagination and failure isolation.  (i) With `good`
pages each carrying a continuation marker followed by a failing call, the
region's emissions are exactly those of the pages before the failure (kept,
not rolled back), the error is logged after the per-page logs, and the
responses after the failure are never consumed (no retry).  (ii) With `good`
pages followed by a final page carrying no marker, pagination consumes
every page and emits all of them.  (iii) In a refresh cycle over regions A
and B, the merged cache is A's emissions followed by B's emissions, each a
function of its own region's responses only — so a failure in region A
leaves region B's collected samples intact. -/
theorem c8_truncation_and_region_isolation (tagKeys : List String)
    (regionName : String) (good : List DescribePage) (e : String)
    (rest : List (Except String DescribePage)) (cache : List Metric)
    (rA rB : String) (pA pB : List (Except String DescribePage))
    (now : Nat) (st : ExporterState) (last : DescribePage)
    (hgood : ∀ p ∈ good, p.marker.isSome) (hlast : last.marker = none) :
    (collectRegionMetrics tagKeys regionName
        (good.map Except.ok ++ (Except.error e :: rest)) cache).emitted =
      (good.map (pageEmissions tagKeys regionName)).flatten
    ∧ (collectRegionMetrics tagKeys regionName
        (good.map Except.ok ++ (Except.error e :: rest)) cache).log =
      (good.map pageLogs).flatten ++ [listInstancesError regionName e]
    ∧ (collectRegionMetrics tagKeys regionName
        (good.map Except.ok ++ [Except.ok last]) cache).emitted =
      ((good ++ [last]).map (pageEmissions tagKeys regionName)).flatten
    ∧ (updateCache now (Except.ok [(rA, pA), (rB, pB)]) st).cache =
        (collectRegionMetrics tags rA pA st.cache).emitted ++
        (collectRegionMetrics tags rB pB st.cache).emitted := by
  refine ⟨?_, ?_, ?_, ?_⟩
  · rw [collectRegionMetrics_goodPages tagKeys regionName good _ cache hgood]
    simp [collectRegionMetrics]
  · rw [collectRegionMetrics_goodPages tagKeys regionName good _ cache hgood]
    simp [collectRegionMetrics]
  · rw [collectRegionMetrics_goodPages tagKeys regionName good _ cache hgood]
    simp [collectRegionMetrics, hlast]
  · simp [updateCache]

/-- Witness for C8: one good page (instance `db-1`, marker present)
followed by a failing call; a final page with no marker; and a cycle over
region `r1` (pagination fails immediately) and region `r2` (one successful
page). -/
theorem c8_truncation_and_region_isolation_witness :
    (collectRegionMetrics tags "eu-west-1"
        ([DescribePage.mk [(db1, Except.ok [])] (some "tok")].map Except.ok
          ++ (Except.error "boom" :: [])) []).emitted =
      ([DescribePage.mk [(db1, Except.ok [])] (some "tok")].map
        (pageEmissions tags "eu-west-1")).flatten
    ∧ (collectRegionMetrics tags "eu-west-1"
        ([DescribePage.mk [(db1, Except.ok [])] (some "tok")].map Except.ok
          ++ (Except.error "boom" :: [])) []).log =
      ([DescribePage.mk [(db1, Except.ok [])] (some "tok")].map pageLogs).flatten
        ++ [listInstancesError "eu-west-1" "boom"]
    ∧ (collectRegionMetrics tags "eu-west-1"
        ([DescribePage.mk [(db1, Except.ok [])] (some "tok")].map Except.ok
          ++ [Except.ok (DescribePage.mk [] none)]) []).emitted =
      (([DescribePage.mk [(db1, Except.ok [])] (some "tok")] ++
          [DescribePage.mk [] none]).map (pageEmissions tags "eu-west-1")).flatten
    ∧ (updateCache 3 (Except.ok
          [("r1", [Except.error "x"]),
           ("r2", [Except.ok (DescribePage.mk [(db1, Except.ok [])] none)])])
        ⟨[], 0, []⟩).cache =
      (collectRegionMetrics tags "r1" [Except.error "x"] ([] : List Metric)).emitted
        ++ (collectRegionMetrics tags "r2"
            [Except.ok (DescribePage.mk [(db1, Except.ok [])] none)]
            ([] : List Metric)).emitted :=
  c8_truncation_and_region_isolation tags "eu-west-1"
    [DescribePage.mk [(db1, Except.ok [])] (some "tok")] "boom" [] []
    "r1" "r2" [Except.error "x"]
    [Except.ok (DescribePage.mk [(db1, Except.ok [])] none)]
    3 ⟨[], 0, []⟩ (DescribePage.mk [] none) (by decide) rfl

/-- C10: whenever region enumeration succeeds, `updateCache` unconditionally
installs the merged collected list as the cache and stamps the completion
time (main.go:120-127) — there is no guard against an empty or reduced
snapshot.  In particular, with a non-empty prior cache and every region's
pagination failing, the refresh installs the empty list and still marks the
cache fresh. -/
theorem c10_unconditional_swap (now : Nat)
    (regions : List (String × List (Except String DescribePage)))
    (st : ExporterState) :
    (updateCache now (Except.ok regions) st).cache =
      ((regions.map (fun rp => collectRegionMetrics tags rp.1 rp.2 st.cache)).map
          RegionResult.emitted).flatten
    ∧ (updateCache now (Except.ok regions) st).lastUpdate = now
    ∧ (updateCache 7 (Except.ok [("r1", [Except.error "x"]),
          ("r2", [Except.error "y"])])
        ⟨[⟨MetricName.iops, 5, ["l"]⟩], 0, []⟩).cache = []
    ∧ (updateCache 7 (Except.ok [("r1", [Except.error "x"]),
          ("r2", [Except.error "y"])])
        ⟨[⟨MetricName.iops, 5, ["l"]⟩], 0, []⟩).lastUpdate = 7 := by
  refine ⟨rfl, rfl, by decide, rfl⟩
